import Mathlib

/-!
Verification of the BETalentBoard authentication and session-rotation
subsystem: a shallow embedding of the auth controller
(`src/controllers/authController.js`), the user-controller password change
(`src/controllers/userController.js`), the JWT utilities (`src/utils/jwt.js`)
and the bcrypt password utilities (`src/utils/password.js`), together with
theorems about token rotation, purpose separation, enumeration resistance,
the refresh-token lifecycle and the password-reset flow.
-/

namespace TalentBoard

/-- Roles from the Prisma schema: `enum Role { USER ADMIN }`. -/
inductive Role where
  | USER
  | ADMIN
deriving DecidableEq, Repr

/-- Model of a signed JWT string (`src/utils/jwt.js`, library `jsonwebtoken`).
HS256 signing is deterministic, so the signed string is a function of the
payload (here always `{ userId }`), the signing secret, the issued-at time
`iat` and the expiry `exp` that `expiresIn` adds to the payload; we model the
string by that quadruple, structural equality modelling string equality. -/
structure Token where
  userId : Nat
  secret : String
  iat : Nat
  exp : Nat
deriving DecidableEq, Repr

/-- The environment configuration: `process.env.JWT_SECRET` and
`process.env.JWT_REFRESH_SECRET`. -/
structure Config where
  jwtSecret : String
  jwtRefreshSecret : String
deriving DecidableEq, Repr

/-- Default access-token TTL: `JWT_EXPIRES_IN || '15m'`, in seconds. -/
def accessTtl : Nat := 15 * 60

/-- Default refresh-token TTL: `JWT_REFRESH_EXPIRES_IN || '7d'`, in seconds. -/
def refreshTtl : Nat := 7 * 24 * 60 * 60

/-- Reset-token TTL: fixed `'1h'`, in seconds. -/
def resetTtl : Nat := 60 * 60

/-- `jwt.sign(payload, secret, { expiresIn: ttl })` at the current time. -/
def jwtSign (userId : Nat) (secret : String) (ttl now : Nat) : Token :=
  { userId := userId, secret := secret, iat := now, exp := now + ttl }

/-- `generateAccessToken({ userId })`: signs with `JWT_SECRET`, 15-minute TTL. -/
def generateAccessToken (cfg : Config) (userId now : Nat) : Token :=
  jwtSign userId cfg.jwtSecret accessTtl now

/-- `generateRefreshToken({ userId })`: signs with `JWT_REFRESH_SECRET`, 7-day TTL. -/
def generateRefreshToken (cfg : Config) (userId now : Nat) : Token :=
  jwtSign userId cfg.jwtRefreshSecret refreshTtl now

/-- `generateResetToken(userId)`: signs `{ userId }` with `JWT_SECRET`, 1-hour TTL. -/
def generateResetToken (cfg : Config) (userId now : Nat) : Token :=
  jwtSign userId cfg.jwtSecret resetTtl now

/-- Outcome of `jwt.verify`: the decoded payload, a `TokenExpiredError`, or a
`JsonWebTokenError` (bad signature / malformed). -/
inductive VerifyResult where
  | ok (userId : Nat)
  | expired
  | invalid
deriving DecidableEq, Repr

/-- `verifyToken(token, secret)` = `jwt.verify(token, secret)`: the signature is
checked first (mismatching secret throws `JsonWebTokenError`), then the expiry
claim (`TokenExpiredError` when the clock has reached `exp`). -/
def verifyToken (tok : Token) (secret : String) (now : Nat) : VerifyResult :=
  if tok.secret ≠ secret then .invalid
  else if tok.exp ≤ now then .expired
  else .ok tok.userId

/-- A row of the Prisma `User` model (schema in the repository docs). -/
structure User where
  id : Nat
  email : String
  username : Option String
  password : String
  name : Option String
  avatar : Option String
  role : Role
  isActive : Bool
  resetToken : Option Token
  resetTokenExpiry : Option Nat
  refreshToken : Option Token
  createdAt : Nat
  updatedAt : Nat
deriving DecidableEq, Repr

/-- The user table. -/
abbrev Store := List User

/-- `prisma.user.update({ where: { id }, data })`: rewrite every row whose
`id` matches (ids are unique in the schema; the model does not depend on it). -/
def updateWhere (store : Store) (id : Nat) (g : User → User) : Store :=
  store.map fun u => if u.id == id then g u else u

/-- The uniform response envelope. Modelled from the spec: `src/utils/helpers.js`
is not under `src/`; the spec fixes all responses to
`{success: boolean, message: string, data: object|null}` plus an HTTP status.
`data = none` models a JSON `null` body. -/
structure ApiResponse (α : Type) where
  success : Bool
  statusCode : Nat
  message : String
  data : Option α
deriving DecidableEq, Repr

/-- Modelled from the spec: `errorResponse(res, message, status)` from the
missing `src/utils/helpers.js` — a failure envelope with no data. -/
def errorResponse (message : String) (status : Nat) : ApiResponse α :=
  { success := false, statusCode := status, message := message, data := none }

/-- Modelled from the spec: `successResponse(res, data, message, status)` from
the missing `src/utils/helpers.js` — a success envelope carrying `data`. -/
def successResponse (data : Option α) (message : String) (status : Nat) :
    ApiResponse α :=
  { success := true, statusCode := status, message := message, data := data }

/-- Modelled from the spec: `validateEmail` lives in the missing
`src/utils/helpers.js`; the spec says only that the email must pass a format
check, modelled here as containing an at-sign. -/
def validateEmail (email : String) : Bool := email.data.any fun c => c == '@'

/-- Modelled from the spec: `validatePassword` lives in the missing
`src/utils/helpers.js`; the spec states the minimum-length policy of at least
6 characters. -/
def validatePassword (password : String) : Bool := 6 ≤ password.length

/-- Model of `hashPassword` (`src/utils/password.js`, bcrypt with 12 salt
rounds). bcrypt is an external collaborator; it is modelled as a deterministic
injective hash, which preserves exactly the behaviour the control flow
depends on: `comparePassword p h` succeeds iff `h` was produced from `p`. -/
def hashPassword (password : String) : String := "bcrypt12$" ++ password

/-- Model of `comparePassword(password, hashedPassword)` (bcrypt compare). -/
def comparePassword (password hashed : String) : Bool :=
  hashPassword password == hashed

/-- The `select` projection returned by `register`. -/
structure RegisteredUser where
  id : Nat
  email : String
  username : Option String
  name : Option String
  role : Role
  createdAt : Nat
deriving DecidableEq, Repr

/-- Projection of a row to `register`'s `select` list. -/
def User.toRegisteredUser (u : User) : RegisteredUser :=
  { id := u.id, email := u.email, username := u.username, name := u.name,
    role := u.role, createdAt := u.createdAt }

/-- The user object `login` returns:
`const { password: _, refreshToken: __, ...userResponse } = user` — every
stored field except `password` and `refreshToken`. -/
structure SanitizedUser where
  id : Nat
  email : String
  username : Option String
  name : Option String
  avatar : Option String
  role : Role
  isActive : Bool
  resetToken : Option Token
  resetTokenExpiry : Option Nat
  createdAt : Nat
  updatedAt : Nat
deriving DecidableEq, Repr

/-- The rest-destructuring `login` performs on the fetched row. -/
def User.sanitize (u : User) : SanitizedUser :=
  { id := u.id, email := u.email, username := u.username, name := u.name,
    avatar := u.avatar, role := u.role, isActive := u.isActive,
    resetToken := u.resetToken, resetTokenExpiry := u.resetTokenExpiry,
    createdAt := u.createdAt, updatedAt := u.updatedAt }

/-- `data` of a successful `register` response. -/
structure RegisterData where
  user : RegisteredUser
  accessToken : Token
  refreshToken : Token
deriving DecidableEq, Repr

/-- `data` of a successful `login` response. -/
structure LoginData where
  user : SanitizedUser
  accessToken : Token
  refreshToken : Token
deriving DecidableEq, Repr

/-- `data` of a successful `refreshToken` response. -/
structure RefreshData where
  accessToken : Token
  refreshToken : Token
deriving DecidableEq, Repr

/-- `data` of the known-email branch of `forgotPassword`: the JS object
`{ resetToken: NODE_ENV === 'development' ? resetToken : undefined }`.
A `none` field models the dropped `undefined` key, so the serialized body is
`{}` in production — still an object, distinct from JSON `null`. -/
structure ForgotData where
  resetToken : Option Token
deriving DecidableEq, Repr

/-- The `if (username)` duplicate check of `register`: only performed when a
username was supplied. -/
def usernameTaken (store : Store) : Option String → Bool
  | some un => (store.find? fun u => u.username == some un).isSome
  | none => false

/-- `POST /auth/register` (`register` in the auth controller). `email = ""` and
`password = ""` model the JS-falsy missing fields, `newId` the cuid Prisma
assigns, `now` the request time (Prisma's `@updatedAt` bumps `updatedAt` on
every update). -/
def register (cfg : Config) (store : Store) (email password : String)
    (name username : Option String) (newId now : Nat) :
    ApiResponse RegisterData × Store :=
  if email = "" ∨ password = "" then
    (errorResponse "Email and password are required" 400, store)
  else if ¬ validateEmail email then
    (errorResponse "Invalid email format" 400, store)
  else if ¬ validatePassword password then
    (errorResponse "Password must be at least 6 characters" 400, store)
  else if (store.find? fun u => u.email == email).isSome then
    (errorResponse "Email already registered" 400, store)
  else if usernameTaken store username then
    (errorResponse "Username already taken" 400, store)
  else
    let user : User :=
      { id := newId, email := email, username := username,
        password := hashPassword password, name := name, avatar := none,
        role := .USER, isActive := true, resetToken := none,
        resetTokenExpiry := none, refreshToken := none,
        createdAt := now, updatedAt := now }
    let accessToken := generateAccessToken cfg user.id now
    let refreshTok := generateRefreshToken cfg user.id now
    let store2 := updateWhere (store ++ [user]) user.id fun u =>
      { u with refreshToken := some refreshTok, updatedAt := now }
    (successResponse (some ⟨user.toRegisteredUser, accessToken, refreshTok⟩)
      "Registration successful" 201, store2)

/-- `POST /auth/login` (`login` in the auth controller). -/
def login (cfg : Config) (store : Store) (email password : String) (now : Nat) :
    ApiResponse LoginData × Store :=
  if email = "" ∨ password = "" then
    (errorResponse "Email and password are required" 400, store)
  else
    match store.find? fun u => u.email == email with
    | none => (errorResponse "Invalid email or password" 401, store)
    | some user =>
      if ¬ user.isActive then
        (errorResponse "Account is deactivated" 401, store)
      else if ¬ comparePassword password user.password then
        (errorResponse "Invalid email or password" 401, store)
      else
        let accessToken := generateAccessToken cfg user.id now
        let refreshTok := generateRefreshToken cfg user.id now
        let store1 := updateWhere store user.id fun u =>
          { u with refreshToken := some refreshTok, updatedAt := now }
        (successResponse (some ⟨user.sanitize, accessToken, refreshTok⟩)
          "Login successful" 200, store1)

/-- `POST /auth/logout` (`logout` in the auth controller): `userId` is
`req.user?.id`; when absent the store is untouched and the call still
succeeds. -/
def logout (store : Store) (userId : Option Nat) (now : Nat) :
    ApiResponse Unit × Store :=
  match userId with
  | some id =>
    (successResponse none "Logout successful" 200,
      updateWhere store id fun u => { u with refreshToken := none, updatedAt := now })
  | none => (successResponse none "Logout successful" 200, store)

/-- `POST /auth/refresh-token` (`refreshToken` in the auth controller):
`presented` is `req.cookies?.refreshToken || req.body.refreshToken`. The
lookup is `findUnique({ where: { id: decoded.userId, refreshToken } })`, an
exact match of the stored value; absent row and inactive account share the
`Invalid refresh token` response the spec names `SessionInvalid`. -/
def refreshToken (cfg : Config) (store : Store) (presented : Option Token)
    (now : Nat) : ApiResponse RefreshData × Store :=
  match presented with
  | none => (errorResponse "Refresh token required" 401, store)
  | some tok =>
    match verifyToken tok cfg.jwtRefreshSecret now with
    | .expired => (errorResponse "Refresh token expired" 401, store)
    | .invalid => (errorResponse "Invalid refresh token" 401, store)
    | .ok uid =>
      match store.find? fun u => u.id == uid && u.refreshToken == some tok with
      | none => (errorResponse "Invalid refresh token" 401, store)
      | some user =>
        if ¬ user.isActive then
          (errorResponse "Invalid refresh token" 401, store)
        else
          let newAccess := generateAccessToken cfg user.id now
          let newRefresh := generateRefreshToken cfg user.id now
          (successResponse (some ⟨newAccess, newRefresh⟩)
            "Token refreshed successfully" 200,
            updateWhere store user.id fun u =>
              { u with refreshToken := some newRefresh, updatedAt := now })

/-- `POST /auth/forgot-password` (`forgotPassword` in the auth controller):
`devMode` is `NODE_ENV === 'development'`, gating whether the reset token is
echoed back in the response data. -/
def forgotPassword (cfg : Config) (store : Store) (email : String)
    (devMode : Bool) (now : Nat) : ApiResponse ForgotData × Store :=
  if email = "" then (errorResponse "Email is required" 400, store)
  else if ¬ validateEmail email then
    (errorResponse "Invalid email format" 400, store)
  else
    match store.find? fun u => u.email == email with
    | none =>
      (successResponse none "If email exists, reset link has been sent" 200, store)
    | some user =>
      let resetTok := generateResetToken cfg user.id now
      let store1 := updateWhere store user.id fun u =>
        { u with resetToken := some resetTok,
                 resetTokenExpiry := some (now + resetTtl), updatedAt := now }
      (successResponse (some ⟨if devMode then some resetTok else none⟩)
        "If email exists, reset link has been sent" 200, store1)

/-- The row filter of `resetPassword`'s
`findFirst({ where: { id, resetToken, resetTokenExpiry: { gt: new Date() } } })`:
exact id and stored-token match, stored expiry strictly in the future (a
`null` expiry never satisfies `gt`). -/
def liveResetRow (uid : Nat) (tok : Token) (now : Nat) (u : User) : Bool :=
  u.id == uid && u.resetToken == some tok &&
    (match u.resetTokenExpiry with
      | some e => decide (now < e)
      | none => false)

/-- `POST /auth/reset-password` (`resetPassword` in the auth controller).
Both `jwt.verify` failures (`TokenExpiredError`, `JsonWebTokenError`) and a
failed row lookup map to the one `Invalid or expired reset token` error. -/
def resetPassword (cfg : Config) (store : Store) (token : Option Token)
    (newPassword : String) (now : Nat) : ApiResponse Unit × Store :=
  match token with
  | none => (errorResponse "Token and new password are required" 400, store)
  | some tok =>
    if newPassword = "" then
      (errorResponse "Token and new password are required" 400, store)
    else if ¬ validatePassword newPassword then
      (errorResponse "Password must be at least 6 characters" 400, store)
    else
      match verifyToken tok cfg.jwtSecret now with
      | .expired => (errorResponse "Invalid or expired reset token" 400, store)
      | .invalid => (errorResponse "Invalid or expired reset token" 400, store)
      | .ok uid =>
        match store.find? (liveResetRow uid tok now) with
        | none => (errorResponse "Invalid or expired reset token" 400, store)
        | some user =>
          (successResponse none "Password reset successful" 200,
            updateWhere store user.id fun u =>
              { u with password := hashPassword newPassword, resetToken := none,
                       resetTokenExpiry := none, refreshToken := none,
                       updatedAt := now })

/-- `PATCH /users/me/password` (`changeMyPassword` in the user controller):
`userId` is the authenticated `req.user.id`. -/
def changeMyPassword (store : Store) (userId : Nat)
    (currentPassword newPassword : String) (now : Nat) :
    ApiResponse Unit × Store :=
  if currentPassword = "" ∨ newPassword = "" then
    (errorResponse "Current password and new password are required" 400, store)
  else if ¬ validatePassword newPassword then
    (errorResponse "New password must be at least 6 characters" 400, store)
  else
    match store.find? fun u => u.id == userId with
    | none => (errorResponse "User not found" 404, store)
    | some user =>
      if ¬ comparePassword currentPassword user.password then
        (errorResponse "Current password is incorrect" 400, store)
      else
        (successResponse none "Password changed successfully. Please login again." 200,
          updateWhere store userId fun u =>
            { u with password := hashPassword newPassword, refreshToken := none,
                     updatedAt := now })

/-- Token purposes as the spec's Token Codec names them. -/
inductive Purpose where
  | access
  | refresh
  | reset
deriving DecidableEq, Repr

/-- The secret the source binds to each purpose: `generateAccessToken` and
`generateResetToken` both sign with `JWT_SECRET`; only refresh tokens use
`JWT_REFRESH_SECRET`. -/
def secretFor (cfg : Config) : Purpose → String
  | .access => cfg.jwtSecret
  | .refresh => cfg.jwtRefreshSecret
  | .reset => cfg.jwtSecret

/-- Issue a token of the given purpose exactly as the source does. -/
def issueToken (cfg : Config) (p : Purpose) (userId now : Nat) : Token :=
  match p with
  | .access => generateAccessToken cfg userId now
  | .refresh => generateRefreshToken cfg userId now
  | .reset => generateResetToken cfg userId now

/-- A configuration with distinct access and refresh secrets, for concrete
witnesses. -/
def cfgW : Config := ⟨"acc-secret", "ref-secret"⟩

/-- A minimal active user row for concrete witnesses. -/
def sampleUser (id : Nat) (email pw : String) : User :=
  { id := id, email := email, username := none, password := hashPassword pw,
    name := none, avatar := none, role := .USER, isActive := true,
    resetToken := none, resetTokenExpiry := none, refreshToken := none,
    createdAt := 0, updatedAt := 0 }

/-- A refresh token issued at time 0 for user 1, for concrete witnesses. -/
def tokW : Token := generateRefreshToken cfgW 1 0

/-- A reset token issued at time 0 for user 1, for concrete witnesses. -/
def rtokW : Token := generateResetToken cfgW 1 0

/-- User 1 holding the live refresh token `tokW`. -/
def userW1 : User := { sampleUser 1 "a@b.com" "secret1" with refreshToken := some tokW }

/-- User 1 holding the live reset token `rtokW`, expiring at time 1000. -/
def userW5 : User :=
  { sampleUser 1 "a@b.com" "secret1" with
      resetToken := some rtokW, resetTokenExpiry := some 1000 }

/-- The row `logout` leaves for user 1 after `logout [userW1] (some 1) 5`. -/
def userW1cleared : User := { userW1 with refreshToken := none, updatedAt := 5 }

/-- A second sample user, for the password-change witness. -/
def userW2 : User := sampleUser 2 "c@d.com" "secret2"

/-- The row `changeMyPassword` leaves for `userW2`. -/
def userW2changed : User :=
  { userW2 with password := hashPassword "newpass7", refreshToken := none, updatedAt := 5 }

/-- The row `resetPassword` leaves for `userW5`. -/
def userW5reset : User :=
  { userW5 with
      password := hashPassword "newpass7", resetToken := none,
      resetTokenExpiry := none, refreshToken := none, updatedAt := 10 }

/-- A deactivated user, for the login-indistinguishability counterexample. -/
def userW7 : User := { sampleUser 1 "i@b.com" "rightpw" with isActive := false }

/-- The row `prisma.user.create` inserts during `register`, before the
follow-up update persists the refresh token. -/
def createdRow (email password : String) (name username : Option String)
    (newId now : Nat) : User :=
  { id := newId, email := email, username := username,
    password := hashPassword password, name := name, avatar := none,
    role := .USER, isActive := true, resetToken := none,
    resetTokenExpiry := none, refreshToken := none,
    createdAt := now, updatedAt := now }

/-- The row `register` leaves in the store for the new user: the created
record with the freshly issued refresh token persisted. -/
def registeredRow (cfg : Config) (email password : String)
    (name username : Option String) (newId now : Nat) : User :=
  { createdRow email password name username newId now with
      refreshToken := some (generateRefreshToken cfg newId now), updatedAt := now }

/-- Every row `updateWhere` leaves with the targeted id is the image under the
patch of a row of the original store, so any property the patch establishes
holds of it. -/
theorem updateWhere_prop (store : Store) (id : Nat) (g : User → User)
    (P : User → Prop) (hP : ∀ w, P (g w)) :
    ∀ v ∈ updateWhere store id g, v.id = id → P v := by
  intro v hv hid
  obtain ⟨w, hw, hfw⟩ := List.mem_map.mp hv
  by_cases h : w.id = id
  · rw [← hfw, if_pos (by simp [h])]
    exact hP w
  · rw [← hfw, if_neg (by simp [h])] at hid
    exact absurd hid h

/-- After `updateWhere`, a filter that forces the targeted id and that the
patch falsifies finds no row. -/
theorem find?_updateWhere_none (store : Store) (id : Nat) (g : User → User)
    (p : User → Bool)
    (hid : ∀ w, p w = true → w.id = id)
    (hgp : ∀ w, p (g w) = false) :
    (updateWhere store id g).find? p = none := by
  rw [List.find?_eq_none]
  intro v hv hp
  obtain ⟨w, hw, hfw⟩ := List.mem_map.mp hv
  by_cases h : w.id = id
  · rw [← hfw, if_pos (by simp [h])] at hp
    rw [hgp w] at hp
    exact Bool.noConfusion hp
  · rw [← hfw, if_neg (by simp [h])] at hp
    exact h (hid w hp)

/-- A filter that is blind to the fields the patch changes commutes with
`updateWhere`. -/
theorem find?_updateWhere_comm (store : Store) (id : Nat) (g : User → User)
    (p : User → Bool) (hpg : ∀ w, p (g w) = p w) :
    (updateWhere store id g).find? p
      = (store.find? p).map fun w => if w.id == id then g w else w := by
  unfold updateWhere
  rw [List.find?_map]
  have hfp : (p ∘ fun u => if u.id == id then g u else u) = p := by
    funext w
    by_cases h : w.id = id <;> simp [Function.comp, h, hpg]
  rw [hfp]

/-- C1: rotation-on-use of refresh tokens. A successful refresh
(`refreshToken` with a structurally valid, unexpired token matching the
stored row of an active user) overwrites the stored refresh token with the
newly issued one, and a subsequent refresh presenting the rotated-out token —
still structurally valid and unexpired at the later time — fails with the
`Invalid refresh token` 401 response the spec calls `SessionInvalid`. The
hypothesis `tok.iat ≠ now2` records that the superseded token was not issued
at the very instant of the rotation (otherwise jsonwebtoken would re-sign the
byte-identical string). -/
theorem claim1_refresh_rotation
    (cfg : Config) (store : Store) (tok : Token) (u : User) (now2 now3 : Nat)
    (hfind : store.find? (fun v => v.id == tok.userId && v.refreshToken == some tok) = some u)
    (hactive : u.isActive = true)
    (hsecret : tok.secret = cfg.jwtRefreshSecret)
    (hunexp2 : now2 < tok.exp)
    (hiat : tok.iat ≠ now2)
    (hunexp3 : now3 < tok.exp) :
    (refreshToken cfg store (some tok) now2).fst
        = successResponse
            (some ⟨generateAccessToken cfg u.id now2, generateRefreshToken cfg u.id now2⟩)
            "Token refreshed successfully" 200
    ∧ (∀ v ∈ (refreshToken cfg store (some tok) now2).snd, v.id = u.id →
        v.refreshToken = some (generateRefreshToken cfg u.id now2))
    ∧ refreshToken cfg (refreshToken cfg store (some tok) now2).snd (some tok) now3
        = (errorResponse "Invalid refresh token" 401,
            (refreshToken cfg store (some tok) now2).snd) := by
  have hpu := List.find?_some hfind
  simp only [Bool.and_eq_true, beq_iff_eq] at hpu
  obtain ⟨huid, hutok⟩ := hpu
  have hver2 : verifyToken tok cfg.jwtRefreshSecret now2 = .ok tok.userId := by
    unfold verifyToken
    rw [if_neg (by simp [hsecret]), if_neg (by omega)]
  have hres : refreshToken cfg store (some tok) now2
      = (successResponse
          (some ⟨generateAccessToken cfg u.id now2, generateRefreshToken cfg u.id now2⟩)
          "Token refreshed successfully" 200,
        updateWhere store u.id fun w =>
          { w with refreshToken := some (generateRefreshToken cfg u.id now2),
                   updatedAt := now2 }) := by
    simp only [refreshToken, hver2, hfind, hactive]
    simp
  have htokne : generateRefreshToken cfg u.id now2 ≠ tok := fun h =>
    hiat (congrArg Token.iat h).symm
  refine ⟨by rw [hres], ?_, ?_⟩
  · rw [hres]
    exact updateWhere_prop store u.id _
      (fun v => v.refreshToken = some (generateRefreshToken cfg u.id now2))
      (fun w => rfl)
  · have hver3 : verifyToken tok cfg.jwtRefreshSecret now3 = .ok tok.userId := by
      unfold verifyToken
      rw [if_neg (by simp [hsecret]), if_neg (by omega)]
    have hnone : (updateWhere store u.id fun w =>
        { w with refreshToken := some (generateRefreshToken cfg u.id now2),
                 updatedAt := now2 }).find?
          (fun v => v.id == tok.userId && v.refreshToken == some tok) = none := by
      apply find?_updateWhere_none
      · intro w hw
        simp only [Bool.and_eq_true, beq_iff_eq] at hw
        rw [hw.1, huid]
      · intro w
        simp [htokne]

    rw [hres]
    simp only [refreshToken, hver3, hnone]

/-- Concrete input for C1: user 1 holds `tokW`; refreshing at time 10 rotates
the stored token, and replaying `tokW` at time 20 is rejected. -/
theorem claim1_refresh_rotation_witness :
    (refreshToken cfgW [userW1] (some tokW) 10).fst
        = successResponse
            (some ⟨generateAccessToken cfgW 1 10, generateRefreshToken cfgW 1 10⟩)
            "Token refreshed successfully" 200
    ∧ refreshToken cfgW (refreshToken cfgW [userW1] (some tokW) 10).snd (some tokW) 20
        = (errorResponse "Invalid refresh token" 401,
            (refreshToken cfgW [userW1] (some tokW) 10).snd) := by
  have h := claim1_refresh_rotation cfgW [userW1] tokW userW1 10 20
    (by decide) (by decide) (by decide) (by decide) (by decide) (by decide)
  exact ⟨h.1, h.2.2⟩

/-- C2, counterexample: purpose separation fails in the source. With distinct
access and refresh secrets configured, a token issued for the `reset` purpose
verifies successfully under the secret bound to the distinct `access` purpose
(`generateResetToken` and `generateAccessToken` both sign with `JWT_SECRET`),
so cross-purpose verification does not fail closed. -/
theorem claim2_purpose_separation_cex :
    Purpose.reset ≠ Purpose.access
    ∧ verifyToken (issueToken cfgW .reset 1 0) (secretFor cfgW .access) 10
        = .ok 1 := by
  decide

/-- C2, amended: purpose separation holds only across the refresh boundary.
When the two configured secrets differ, a token of any non-refresh purpose
fails closed under the refresh secret and a refresh token fails closed under
any non-refresh purpose's secret; but the access and reset purposes share
`JWT_SECRET`, so an unexpired token of either purpose verifies successfully
under the secret bound to the other. -/
theorem claim2_purpose_separation_amended
    (cfg : Config) (uid now t : Nat)
    (hne : cfg.jwtSecret ≠ cfg.jwtRefreshSecret)
    (ht : t < now + accessTtl) :
    (∀ p, p ≠ Purpose.refresh →
      verifyToken (issueToken cfg p uid now) (secretFor cfg .refresh) t = .invalid)
    ∧ (∀ p, p ≠ Purpose.refresh →
      verifyToken (issueToken cfg .refresh uid now) (secretFor cfg p) t = .invalid)
    ∧ verifyToken (issueToken cfg .reset uid now) (secretFor cfg .access) t = .ok uid
    ∧ verifyToken (issueToken cfg .access uid now) (secretFor cfg .reset) t = .ok uid := by
  have hta : t < now + accessTtl := ht
  have htr : t < now + resetTtl := by
    have : accessTtl ≤ resetTtl := by decide
    omega
  refine ⟨?_, ?_, ?_, ?_⟩
  · intro p hp
    cases p with
    | access =>
      simp [issueToken, generateAccessToken, jwtSign, verifyToken, secretFor, hne]
    | refresh => exact absurd rfl hp
    | reset =>
      simp [issueToken, generateResetToken, jwtSign, verifyToken, secretFor, hne]
  · intro p hp
    cases p with
    | access =>
      simp [issueToken, generateRefreshToken, jwtSign, verifyToken, secretFor,
        Ne.symm hne]
    | refresh => exact absurd rfl hp
    | reset =>
      simp [issueToken, generateRefreshToken, jwtSign, verifyToken, secretFor,
        Ne.symm hne]
  · simp [issueToken, generateResetToken, jwtSign, verifyToken, secretFor]
    omega
  · simp [issueToken, generateAccessToken, jwtSign, verifyToken, secretFor]
    omega

/-- Concrete input for the amended C2 at `cfgW`, user 1, issue time 0,
verification time 5. -/
theorem claim2_purpose_separation_amended_witness :
    verifyToken (issueToken cfgW .access 1 0) (secretFor cfgW .refresh) 5 = .invalid
    ∧ verifyToken (issueToken cfgW .refresh 1 0) (secretFor cfgW .access) 5 = .invalid
    ∧ verifyToken (issueToken cfgW .reset 1 0) (secretFor cfgW .access) 5 = .ok 1
    ∧ verifyToken (issueToken cfgW .access 1 0) (secretFor cfgW .reset) 5 = .ok 1 := by
  have h := claim2_purpose_separation_amended cfgW 1 0 5 (by decide) (by decide)
  exact ⟨h.1 .access (by decide), h.2.1 .access (by decide), h.2.2.1, h.2.2.2⟩

/-- C3, counterexample: `forgotPassword` does not return identical responses
for registered and unknown emails. Even in production (`devMode = false`),
the registered email "a@b.com" yields `data = {}` (the object whose
`undefined` reset-token key is dropped) while the unknown email "zz@b.com"
yields `data = null`, so the full responses differ. -/
theorem claim3_enumeration_cex :
    (forgotPassword cfgW [sampleUser 1 "a@b.com" "secret1"] "a@b.com" false 0).fst
      ≠ (forgotPassword cfgW [sampleUser 1 "a@b.com" "secret1"] "zz@b.com" false 0).fst := by
  decide

/-- C3, amended: for any pair of a registered and an unknown well-formed
email, the two `forgotPassword` responses agree on the success flag, message
and status code, but the `data` fields necessarily differ: `null` for the
unknown email versus an object for the registered one (empty in production,
carrying the fresh reset token in development). -/
theorem claim3_enumeration_amended
    (cfg : Config) (store : Store) (eK eU : String) (devMode : Bool)
    (now : Nat) (u : User)
    (hK : eK ≠ "") (hKf : validateEmail eK = true)
    (hU : eU ≠ "") (hUf : validateEmail eU = true)
    (hfindK : store.find? (fun v => v.email == eK) = some u)
    (hfindU : store.find? (fun v => v.email == eU) = none) :
    (forgotPassword cfg store eK devMode now).fst.success
        = (forgotPassword cfg store eU devMode now).fst.success
    ∧ (forgotPassword cfg store eK devMode now).fst.message
        = (forgotPassword cfg store eU devMode now).fst.message
    ∧ (forgotPassword cfg store eK devMode now).fst.statusCode
        = (forgotPassword cfg store eU devMode now).fst.statusCode
    ∧ (forgotPassword cfg store eU devMode now).fst.data = none
    ∧ (forgotPassword cfg store eK devMode now).fst.data
        = some ⟨if devMode then some (generateResetToken cfg u.id now) else none⟩
    ∧ (forgotPassword cfg store eK devMode now).fst.data
        ≠ (forgotPassword cfg store eU devMode now).fst.data := by
  have hrK : forgotPassword cfg store eK devMode now
      = (successResponse
          (some ⟨if devMode then some (generateResetToken cfg u.id now) else none⟩)
          "If email exists, reset link has been sent" 200,
        updateWhere store u.id fun w =>
          { w with resetToken := some (generateResetToken cfg u.id now),
                   resetTokenExpiry := some (now + resetTtl), updatedAt := now }) := by
    simp only [forgotPassword, hfindK]
    rw [if_neg hK, if_neg (by simp [hKf])]
  have hrU : forgotPassword cfg store eU devMode now
      = (successResponse none "If email exists, reset link has been sent" 200, store) := by
    simp only [forgotPassword, hfindU]
    rw [if_neg hU, if_neg (by simp [hUf])]
  rw [hrK, hrU]
  exact ⟨rfl, rfl, rfl, rfl, rfl, by simp [successResponse]⟩

/-- Concrete input for the amended C3: registered "a@b.com" versus unknown
"zz@b.com" against the one-user store, in production mode at time 0. -/
theorem claim3_enumeration_amended_witness :
    (forgotPassword cfgW [sampleUser 1 "a@b.com" "secret1"] "a@b.com" false 0).fst.success
        = (forgotPassword cfgW [sampleUser 1 "a@b.com" "secret1"] "zz@b.com" false 0).fst.success
    ∧ (forgotPassword cfgW [sampleUser 1 "a@b.com" "secret1"] "a@b.com" false 0).fst.data
        = some ⟨none⟩
    ∧ (forgotPassword cfgW [sampleUser 1 "a@b.com" "secret1"] "a@b.com" false 0).fst.data
        ≠ (forgotPassword cfgW [sampleUser 1 "a@b.com" "secret1"] "zz@b.com" false 0).fst.data := by
  have h := claim3_enumeration_amended cfgW [sampleUser 1 "a@b.com" "secret1"]
    "a@b.com" "zz@b.com" false 0 (sampleUser 1 "a@b.com" "secret1")
    (by decide) (by decide) (by decide) (by decide) (by decide) (by decide)
  exact ⟨h.1, h.2.2.2.2.1, h.2.2.2.2.2⟩

/-- Shape of a successful `resetPassword` call: a present token that verifies
under `JWT_SECRET` and matches a live stored row yields the success response
and the credential-swapping row update. -/
theorem resetPassword_success_eq
    (cfg : Config) (store : Store) (tok : Token) (u : User)
    (newPassword : String) (now : Nat)
    (hnp : newPassword ≠ "") (hval : validatePassword newPassword = true)
    (hsec : tok.secret = cfg.jwtSecret) (hexp : now < tok.exp)
    (hfind : store.find? (liveResetRow tok.userId tok now) = some u) :
    resetPassword cfg store (some tok) newPassword now
      = (successResponse none "Password reset successful" 200,
         updateWhere store u.id fun w =>
           { w with password := hashPassword newPassword, resetToken := none,
                    resetTokenExpiry := none, refreshToken := none,
                    updatedAt := now }) := by
  have hver : verifyToken tok cfg.jwtSecret now = .ok tok.userId := by
    unfold verifyToken
    rw [if_neg (by simp [hsec]), if_neg (by omega)]
  simp only [resetPassword, hver, hfind]
  rw [if_neg hnp, if_neg (by simp [hval])]

/-- C4: refresh-token lifecycle invariant. Each of `logout` (with an
authenticated user id), `changeMyPassword` with the correct current password,
and a successful `resetPassword` clears the stored `refreshToken` (sets it to
`null`) on every row of the targeted user. -/
theorem claim4_refresh_cleared
    (cfg : Config) (store1 store2 store3 : Store)
    (uid1 now1 : Nat)
    (uid2 : Nat) (cur newPw : String) (u2 : User) (now2 : Nat)
    (tok : Token) (u3 : User) (newPw3 : String) (now3 : Nat)
    (hcur : cur ≠ "") (hnp : newPw ≠ "") (hval : validatePassword newPw = true)
    (hfind2 : store2.find? (fun v => v.id == uid2) = some u2)
    (hcmp : comparePassword cur u2.password = true)
    (hnp3 : newPw3 ≠ "") (hval3 : validatePassword newPw3 = true)
    (hsec : tok.secret = cfg.jwtSecret) (hexp : now3 < tok.exp)
    (hfind3 : store3.find? (liveResetRow tok.userId tok now3) = some u3) :
    (∀ v ∈ (logout store1 (some uid1) now1).snd, v.id = uid1 →
        v.refreshToken = none)
    ∧ (∀ v ∈ (changeMyPassword store2 uid2 cur newPw now2).snd, v.id = uid2 →
        v.refreshToken = none)
    ∧ (∀ v ∈ (resetPassword cfg store3 (some tok) newPw3 now3).snd, v.id = u3.id →
        v.refreshToken = none) := by
  refine ⟨?_, ?_, ?_⟩
  · simp only [logout]
    exact updateWhere_prop store1 uid1 _ (fun v => v.refreshToken = none)
      (fun w => rfl)
  · have hch : changeMyPassword store2 uid2 cur newPw now2
        = (successResponse none "Password changed successfully. Please login again." 200,
           updateWhere store2 uid2 fun w =>
             { w with password := hashPassword newPw, refreshToken := none,
                      updatedAt := now2 }) := by
      simp only [changeMyPassword, hfind2]
      rw [if_neg (by push_neg; exact ⟨hcur, hnp⟩), if_neg (by simp [hval]),
        if_neg (by simp [hcmp])]
    rw [hch]
    exact updateWhere_prop store2 uid2 _ (fun v => v.refreshToken = none)
      (fun w => rfl)
  · rw [resetPassword_success_eq cfg store3 tok u3 newPw3 now3 hnp3 hval3 hsec hexp hfind3]
    exact updateWhere_prop store3 u3.id _ (fun v => v.refreshToken = none)
      (fun w => rfl)

/-- Concrete inputs for C4: logout of user 1 holding `tokW`, password change
for user 2 with the correct current password, and password reset for user 5's
live reset token; the post-state rows all carry a cleared refresh token. -/
theorem claim4_refresh_cleared_witness :
    userW1cleared ∈ (logout [userW1] (some 1) 5).snd
    ∧ userW1cleared.refreshToken = none
    ∧ userW2changed ∈ (changeMyPassword [userW2] 2 "secret2" "newpass7" 5).snd
    ∧ userW2changed.refreshToken = none
    ∧ userW5reset ∈ (resetPassword cfgW [userW5] (some rtokW) "newpass7" 10).snd
    ∧ userW5reset.refreshToken = none := by
  have h := claim4_refresh_cleared cfgW [userW1] [userW2] [userW5]
    1 5 2 "secret2" "newpass7" userW2 5 rtokW userW5 "newpass7" 10
    (by decide) (by decide) (by decide) (by decide) (by decide)
    (by decide) (by decide) (by decide) (by decide) (by decide)
  exact ⟨by decide, h.1 userW1cleared (by decide) (by decide),
    by decide, h.2.1 userW2changed (by decide) (by decide),
    by decide, h.2.2 userW5reset (by decide) (by decide)⟩

/-- C5: postcondition of a successful `resetPassword`. When the presented
token verifies under `JWT_SECRET`, matches the stored `resetToken` of a row
with the decoded id, and the stored `resetTokenExpiry` is strictly in the
future, the call answers `Password reset successful` and the user's row ends
with the new password hash persisted and `resetToken`, `resetTokenExpiry` and
`refreshToken` all cleared. -/
theorem claim5_reset_postcondition
    (cfg : Config) (store : Store) (tok : Token) (u : User) (e : Nat)
    (newPassword : String) (now : Nat)
    (hmem : u ∈ store) (hid : u.id = tok.userId)
    (hstored : u.resetToken = some tok)
    (hexpiry : u.resetTokenExpiry = some e) (hlive : now < e)
    (hsec : tok.secret = cfg.jwtSecret) (hexp : now < tok.exp)
    (hnp : newPassword ≠ "") (hval : validatePassword newPassword = true) :
    (resetPassword cfg store (some tok) newPassword now).fst
        = successResponse none "Password reset successful" 200
    ∧ ∀ v ∈ (resetPassword cfg store (some tok) newPassword now).snd,
        v.id = tok.userId →
          v.password = hashPassword newPassword ∧ v.resetToken = none
          ∧ v.resetTokenExpiry = none ∧ v.refreshToken = none := by
  have hsome : (store.find? (liveResetRow tok.userId tok now)).isSome := by
    rw [List.find?_isSome]
    exact ⟨u, hmem, by simp [liveResetRow, hid, hstored, hexpiry, hlive]⟩
  cases hf : store.find? (liveResetRow tok.userId tok now) with
  | none => rw [hf] at hsome; simp at hsome
  | some w =>
    have hwid : w.id = tok.userId := by
      have hp := List.find?_some hf
      simp only [liveResetRow, Bool.and_eq_true, beq_iff_eq] at hp
      exact hp.1.1
    rw [resetPassword_success_eq cfg store tok w newPassword now hnp hval hsec hexp hf]
    refine ⟨rfl, ?_⟩
    rw [hwid] at *
    exact updateWhere_prop store tok.userId _
      (fun v => v.password = hashPassword newPassword ∧ v.resetToken = none
        ∧ v.resetTokenExpiry = none ∧ v.refreshToken = none)
      (fun w' => ⟨rfl, rfl, rfl, rfl⟩)

/-- Concrete input for C5: `userW5` holds the live reset token `rtokW`; the
reset at time 10 succeeds and its row carries the new hash with all three
token fields cleared. -/
theorem claim5_reset_postcondition_witness :
    (resetPassword cfgW [userW5] (some rtokW) "newpass7" 10).fst
        = successResponse none "Password reset successful" 200
    ∧ (userW5reset.password = hashPassword "newpass7" ∧ userW5reset.resetToken = none
        ∧ userW5reset.resetTokenExpiry = none ∧ userW5reset.refreshToken = none) := by
  have h := claim5_reset_postcondition cfgW [userW5] rtokW userW5 1000 "newpass7" 10
    (by decide) (by decide) (by decide) (by decide) (by decide) (by decide)
    (by decide) (by decide) (by decide)
  exact ⟨h.1, h.2 userW5reset (by decide) (by decide)⟩

/-- C6: merged reset-token error kind. For any `resetPassword` call carrying a
token and a policy-passing new password, every failure of the reset-token
checks — wrong signature, expired token, or no live stored row (wrong,
missing, expired or already-consumed stored token) — produces the single
`Invalid or expired reset token` 400 response and leaves the store
unchanged. -/
theorem claim6_merged_reset_error
    (cfg : Config) (store : Store) (tok : Token) (newPassword : String) (now : Nat)
    (hnp : newPassword ≠ "") (hval : validatePassword newPassword = true)
    (hfail : tok.secret ≠ cfg.jwtSecret ∨ tok.exp ≤ now
      ∨ store.find? (liveResetRow tok.userId tok now) = none) :
    resetPassword cfg store (some tok) newPassword now
      = (errorResponse "Invalid or expired reset token" 400, store) := by
  simp only [resetPassword]
  rw [if_neg hnp, if_neg (by simp [hval])]
  by_cases h1 : tok.secret = cfg.jwtSecret
  · by_cases h2 : tok.exp ≤ now
    · have hver : verifyToken tok cfg.jwtSecret now = .expired := by
        unfold verifyToken
        rw [if_neg (by simp [h1]), if_pos h2]
      simp only [hver]
    · have hver : verifyToken tok cfg.jwtSecret now = .ok tok.userId := by
        unfold verifyToken
        rw [if_neg (by simp [h1]), if_neg h2]
      have hfind : store.find? (liveResetRow tok.userId tok now) = none := by
        rcases hfail with h | h | h
        · exact absurd h1 h
        · exact absurd h h2
        · exact h
      simp only [hver, hfind]
  · have hver : verifyToken tok cfg.jwtSecret now = .invalid := by
      unfold verifyToken
      rw [if_pos (by simp [h1])]
    simp only [hver]

/-- Concrete input for C6: presenting the structurally valid, unexpired reset
token `rtokW` against an empty store (no stored reset token) fails with the
merged error. -/
theorem claim6_merged_reset_error_witness :
    resetPassword cfgW [] (some rtokW) "newpass7" 10
      = (errorResponse "Invalid or expired reset token" 400, []) :=
  claim6_merged_reset_error cfgW [] rtokW "newpass7" 10 (by decide) (by decide)
    (Or.inr (Or.inr (by decide)))

/-- C7, counterexample: login failures are not always indistinguishable. A
wrong-password attempt against the existing but deactivated account
"i@b.com" answers `Account is deactivated`, while the non-existent email
"zz@b.com" answers `Invalid email or password`, so the two failure responses
differ and account existence leaks for deactivated accounts. -/
theorem claim7_login_indist_cex :
    (login cfgW [userW7] "i@b.com" "wrongpw1" 0).fst
      ≠ (login cfgW [userW7] "zz@b.com" "wrongpw1" 0).fst := by
  decide

/-- C7, amended: for every login attempt with a non-existent email and every
login attempt against an existing ACTIVE account with a wrong password, the
responses are the identical generic `Invalid email or password` 401 error
(inactive accounts instead surface `Account is deactivated`, before the
password is ever compared). -/
theorem claim7_login_indist_amended
    (cfg : Config) (store : Store) (e1 p1 e2 p2 : String) (u : User)
    (now1 now2 : Nat)
    (h1e : e1 ≠ "") (h1p : p1 ≠ "")
    (hfind1 : store.find? (fun v => v.email == e1) = none)
    (h2e : e2 ≠ "") (h2p : p2 ≠ "")
    (hfind2 : store.find? (fun v => v.email == e2) = some u)
    (hactive : u.isActive = true)
    (hwrong : comparePassword p2 u.password = false) :
    login cfg store e1 p1 now1 = (errorResponse "Invalid email or password" 401, store)
    ∧ login cfg store e2 p2 now2 = (errorResponse "Invalid email or password" 401, store)
    ∧ (login cfg store e1 p1 now1).fst = (login cfg store e2 p2 now2).fst := by
  have h1 : login cfg store e1 p1 now1
      = (errorResponse "Invalid email or password" 401, store) := by
    unfold login
    rw [if_neg (by push_neg; exact ⟨h1e, h1p⟩)]
    simp [hfind1]
  have h2 : login cfg store e2 p2 now2
      = (errorResponse "Invalid email or password" 401, store) := by
    unfold login
    rw [if_neg (by push_neg; exact ⟨h2e, h2p⟩)]
    simp [hfind2, hactive, hwrong]
  exact ⟨h1, h2, by rw [h1, h2]⟩

/-- Concrete inputs for the amended C7: unknown "zz@b.com" versus the active
registered "a@b.com" with a wrong password. -/
theorem claim7_login_indist_amended_witness :
    login cfgW [sampleUser 1 "a@b.com" "secret1"] "zz@b.com" "whatever1" 0
        = (errorResponse "Invalid email or password" 401, [sampleUser 1 "a@b.com" "secret1"])
    ∧ login cfgW [sampleUser 1 "a@b.com" "secret1"] "a@b.com" "wrongpw1" 0
        = (errorResponse "Invalid email or password" 401, [sampleUser 1 "a@b.com" "secret1"])
    ∧ (login cfgW [sampleUser 1 "a@b.com" "secret1"] "zz@b.com" "whatever1" 0).fst
        = (login cfgW [sampleUser 1 "a@b.com" "secret1"] "a@b.com" "wrongpw1" 0).fst :=
  claim7_login_indist_amended cfgW [sampleUser 1 "a@b.com" "secret1"]
    "zz@b.com" "whatever1" "a@b.com" "wrongpw1" (sampleUser 1 "a@b.com" "secret1") 0 0
    (by decide) (by decide) (by decide) (by decide) (by decide) (by decide)
    (by decide) (by decide)

/-- C8: register/login round trip. A valid registration (fresh well-formed
email, policy-passing password, username free if given) succeeds with 201,
and a subsequent login with the same credentials succeeds, returning a fresh
access/refresh token pair and the sanitized row of the registered user;
moreover both user projections (`register`'s select and `login`'s
rest-destructuring) are insensitive to the password hash and the stored
refresh token, so neither ever appears in them. -/
theorem claim8_register_login_roundtrip
    (cfg : Config) (store : Store) (email password : String)
    (name username : Option String) (newId now1 now2 : Nat)
    (he : email ≠ "") (hp : password ≠ "")
    (hef : validateEmail email = true) (hpv : validatePassword password = true)
    (hfresh : store.find? (fun v => v.email == email) = none)
    (husern : usernameTaken store username = false) :
    (register cfg store email password name username newId now1).fst.success = true
    ∧ (register cfg store email password name username newId now1).fst.statusCode = 201
    ∧ login cfg (register cfg store email password name username newId now1).snd
        email password now2
      = (successResponse
          (some ⟨User.sanitize (registeredRow cfg email password name username newId now1),
                 generateAccessToken cfg newId now2, generateRefreshToken cfg newId now2⟩)
          "Login successful" 200,
         updateWhere (register cfg store email password name username newId now1).snd
           newId fun w =>
             { w with refreshToken := some (generateRefreshToken cfg newId now2),
                      updatedAt := now2 })
    ∧ (∀ (w : User) (pw : String) (rt : Option Token),
        User.sanitize { w with password := pw, refreshToken := rt } = User.sanitize w)
    ∧ (∀ (w : User) (pw : String) (rt : Option Token),
        User.toRegisteredUser { w with password := pw, refreshToken := rt }
          = User.toRegisteredUser w) := by
  have hreg : register cfg store email password name username newId now1
      = (successResponse
          (some ⟨User.toRegisteredUser (createdRow email password name username newId now1),
                 generateAccessToken cfg newId now1, generateRefreshToken cfg newId now1⟩)
          "Registration successful" 201,
         updateWhere (store ++ [createdRow email password name username newId now1])
           newId fun w =>
             { w with refreshToken := some (generateRefreshToken cfg newId now1),
                      updatedAt := now1 }) := by
    unfold register
    rw [if_neg (by push_neg; exact ⟨he, hp⟩), if_neg (by simp [hef]),
      if_neg (by simp [hpv]), if_neg (by rw [hfresh]; simp),
      if_neg (by rw [husern]; simp)]
    rfl
  have hsnd : (register cfg store email password name username newId now1).snd
      = updateWhere (store ++ [createdRow email password name username newId now1])
          newId fun w =>
            { w with refreshToken := some (generateRefreshToken cfg newId now1),
                     updatedAt := now1 } := by
    rw [hreg]
  have hlookup : ((register cfg store email password name username newId now1).snd).find?
      (fun v => v.email == email)
      = some (registeredRow cfg email password name username newId now1) := by
    rw [hsnd]
    rw [find?_updateWhere_comm
      (store ++ [createdRow email password name username newId now1]) newId
      (fun w => { w with refreshToken := some (generateRefreshToken cfg newId now1),
                         updatedAt := now1 })
      (fun v => v.email == email) (fun w => rfl)]
    rw [List.find?_append, hfresh]
    simp [createdRow, registeredRow]
  refine ⟨by rw [hreg]; rfl, by rw [hreg]; rfl, ?_, fun w pw rt => rfl,
    fun w pw rt => rfl⟩
  unfold login
  rw [if_neg (by push_neg; exact ⟨he, hp⟩)]
  simp only [hlookup]
  have hact : (registeredRow cfg email password name username newId now1).isActive = true := rfl
  have hcmp : comparePassword password
      (registeredRow cfg email password name username newId now1).password = true := by
    simp [registeredRow, createdRow, comparePassword]
  have hid : (registeredRow cfg email password name username newId now1).id = newId := rfl
  simp [hact, hcmp, hid]

/-- Concrete input for C8: registering "a@b.com" with password "secret1" into
the empty store at time 0, then logging in at time 5. -/
theorem claim8_register_login_roundtrip_witness :
    (register cfgW [] "a@b.com" "secret1" none none 1 0).fst.success = true
    ∧ (register cfgW [] "a@b.com" "secret1" none none 1 0).fst.statusCode = 201
    ∧ (login cfgW (register cfgW [] "a@b.com" "secret1" none none 1 0).snd
        "a@b.com" "secret1" 5).fst
      = successResponse
          (some ⟨User.sanitize (registeredRow cfgW "a@b.com" "secret1" none none 1 0),
                 generateAccessToken cfgW 1 5, generateRefreshToken cfgW 1 5⟩)
          "Login successful" 200 := by
  have h := claim8_register_login_roundtrip cfgW [] "a@b.com" "secret1" none none 1 0 5
    (by decide) (by decide) (by decide) (by decide) (by decide) (by decide)
  exact ⟨h.1, h.2.1, by rw [h.2.2.1]⟩

/-- C9 (implicit): the user object in a successful login response is the full
stored row with exactly the `password` and `refreshToken` fields removed — in
particular a pending `resetToken` and `resetTokenExpiry` are included
verbatim in the response body. -/
theorem claim9_login_user_view
    (cfg : Config) (store : Store) (email password : String) (u : User) (now : Nat)
    (he : email ≠ "") (hp : password ≠ "")
    (hfind : store.find? (fun v => v.email == email) = some u)
    (hactive : u.isActive = true)
    (hcmp : comparePassword password u.password = true) :
    (login cfg store email password now).fst.data
        = some ⟨User.sanitize u, generateAccessToken cfg u.id now,
                generateRefreshToken cfg u.id now⟩
    ∧ (User.sanitize u).resetToken = u.resetToken
    ∧ (User.sanitize u).resetTokenExpiry = u.resetTokenExpiry
    ∧ (User.sanitize u).id = u.id ∧ (User.sanitize u).email = u.email
    ∧ (User.sanitize u).username = u.username ∧ (User.sanitize u).name = u.name
    ∧ (User.sanitize u).avatar = u.avatar ∧ (User.sanitize u).role = u.role
    ∧ (User.sanitize u).isActive = u.isActive
    ∧ (User.sanitize u).createdAt = u.createdAt
    ∧ (User.sanitize u).updatedAt = u.updatedAt := by
  have hl : login cfg store email password now
      = (successResponse
          (some ⟨User.sanitize u, generateAccessToken cfg u.id now,
                 generateRefreshToken cfg u.id now⟩)
          "Login successful" 200,
         updateWhere store u.id fun w =>
           { w with refreshToken := some (generateRefreshToken cfg u.id now),
                    updatedAt := now }) := by
    unfold login
    rw [if_neg (by push_neg; exact ⟨he, hp⟩)]
    simp [hfind, hactive, hcmp]
  exact ⟨by rw [hl]; rfl, rfl, rfl, rfl, rfl, rfl, rfl, rfl, rfl, rfl, rfl, rfl⟩

/-- Concrete input for C9: user 1 has a pending reset token `rtokW`; the login
response's user object is the sanitized row and carries that reset token
verbatim. -/
theorem claim9_login_user_view_witness :
    (login cfgW [userW5] "a@b.com" "secret1" 5).fst.data
        = some ⟨User.sanitize userW5, generateAccessToken cfgW userW5.id 5,
                generateRefreshToken cfgW userW5.id 5⟩
    ∧ (User.sanitize userW5).resetToken = some rtokW := by
  have h := claim9_login_user_view cfgW [userW5] "a@b.com" "secret1" userW5 5
    (by decide) (by decide) (by decide) (by decide) (by decide)
  exact ⟨h.1, by rw [h.2.1]; decide⟩

end TalentBoard
